import Mathlib

/-!
Shallow embedding of the transaction engine in `src/lib/transactions/index.js`
of the beeline-server repository, together with proofs about the checks and
workflows it implements.  JavaScript numbers are modelled as rationals (ℚ):
every comparison the code performs is against decimal constants, and all
concrete inputs used below are exactly representable in binary floating
point or compare identically on both sides, so the branch taken by the
model agrees with the branch taken by the floating-point code.
-/

namespace Beeline

/-! ## Transaction items and `validateTxn` -/

/-- A row of the `transactionItems` table as seen by `validateTxn`:
`itemId` (checked truthy), and the `debit`/`credit` columns, each of which
may be absent (`none`, for SQL NULL) or hold a numeric value. -/
structure TxnItem where
  itemId : Option Nat
  debit : Option ℚ
  credit : Option ℚ
deriving DecidableEq, Repr

/-- JS truthiness of an optional numeric field: present and nonzero. -/
def numTruthy : Option ℚ → Bool
  | none => false
  | some q => q != 0

/-- The summand used by `validateTxn`:
`debit ? parseFloat(debit) : credit ? -parseFloat(credit) : 0`. -/
def signedAmount (it : TxnItem) : ℚ :=
  if numTruthy it.debit then it.debit.getD 0
  else if numTruthy it.credit then -(it.credit.getD 0)
  else 0

/-- `sumOfDebit` of `validateTxn`: the signed sum over all items. -/
def sumOfDebit (items : List TxnItem) : ℚ :=
  (items.map signedAmount).sum

/-- JS truthiness of the `itemId` field (`_.every(items, "itemId")`). -/
def itemIdTruthy (it : TxnItem) : Bool :=
  match it.itemId with
  | none => false
  | some n => n != 0

/-- `validateTxn`: asserts every item has a truthy `itemId`, then throws when
`Math.abs(sumOfDebit) > 0.000001`, and otherwise returns the items
unchanged. -/
def validateTxn (items : List TxnItem) : Except String (List TxnItem) :=
  if ¬ (items.all itemIdTruthy) then
    .error "assertion failed: itemId"
  else if |sumOfDebit items| > 1/1000000 then
    .error "Transaction does not add up to zero. This is usually a programming mistake"
  else
    .ok items

/-- `Math.abs`. -/
def jsAbs (q : ℚ) : ℚ := if q < 0 then -q else q

theorem jsAbs_eq_abs (q : ℚ) : jsAbs q = |q| := by
  unfold jsAbs
  split_ifs with h
  · exact (abs_of_neg h).symm
  · exact (abs_of_nonneg (not_lt.mp h)).symm

/-! ## Ticket and route-pass statuses -/

/-- The status values tickets and route passes range over. -/
inductive Status
  | pending
  | valid
  | void
  | failed
  | refunded
  | expired
deriving DecidableEq, Repr

/-! ## `prepareTicketRefund` validation sequence -/

/-- The values `prepareTicketRefund` reads from the database before deciding
whether to accept a refund request: the requested `targetAmt`, the ticket's
status, the `credit` of its `ticketSale` item, `notes.discountValue`
(defaulted to 0), the `debit` of the sale transaction's `payment` item, and
the summed `debit` of previously committed `ticketRefund` items. -/
structure TicketRefundContext where
  targetAmt : ℚ
  ticketStatus : Status
  ticketSaleCredit : ℚ
  discountValue : ℚ
  paymentDebit : ℚ
  previouslyRefunded : ℚ
deriving DecidableEq, Repr

/-- The chain of `TransactionError.assert` checks in `prepareTicketRefund`;
on success the function pushes a `ticketRefund` item whose `debit` is the
returned amount. -/
def prepareTicketRefundChecks (c : TicketRefundContext) : Except String ℚ :=
  if ¬ (c.ticketStatus = .valid ∨ c.ticketStatus = .void) then
    .error "Trying to refund a non-valid ticket"
  else if ¬ (0 < c.paymentDebit) then
    .error "No payment was made for this transaction"
  else if ¬ (jsAbs (c.targetAmt - (c.ticketSaleCredit - c.discountValue)) < 1/10000) then
    .error "Current implementation requires requested refund to equal ticket value after discounts"
  else if ¬ (c.ticketSaleCredit - c.discountValue - c.previouslyRefunded ≥ c.targetAmt) then
    .error "Refund requested causes total refunded to exceed allowed refund amount"
  else
    .ok c.targetAmt

/-! ## Refund status transitions and their undo actions -/

/-- The status written while a refund is prepared, together with the
compensating action the workflow records (`undoFunctions`), as a function of
the status found at undo time. -/
structure RefundStatusFlow where
  refunded : Status
  undo : Status → Status

/-- `prepareTicketRefund`: a `valid` or `void` ticket is set to `refunded`,
and the recorded undo sets the status to `valid`. -/
def ticketRefundStatusFlow (prior : Status) : Except String RefundStatusFlow :=
  if prior = .valid ∨ prior = .void then
    .ok ⟨.refunded, fun _ => .valid⟩
  else
    .error "Trying to refund a non-valid ticket"

/-- `prepareRoutePassRefund`: a `valid`, `void` or `expired` route pass is
set to `refunded`, and the recorded undo writes back the captured
`lastStatus`. -/
def routePassRefundStatusFlow (prior : Status) : Except String RefundStatusFlow :=
  if prior = .valid ∨ prior = .void ∨ prior = .expired then
    .ok ⟨.refunded, fun _ => prior⟩
  else
    .error "Only valid, void or expired route passes can be refunded"

/-! ## `generateRefundInfo` -/

/-- `Math.round`: round half away from zero is JS behaviour for positive
arguments; `Math.round(x)` equals `⌊x + 0.5⌋` for every finite `x`. -/
def jsRound (q : ℚ) : ℤ := ⌊q + 1/2⌋

/-- A gateway-side charge as returned by `retrieveCharge`: amounts in cents,
plus the opaque `source` later fed to `isLocalAndNonAmex`. -/
structure Charge where
  amount : ℤ
  amount_refunded : ℤ
  source : String
deriving DecidableEq, Repr

/-- The record `generateRefundInfo` returns (the `charge` field is omitted:
it is the input charge passed through unchanged). -/
structure RefundInfo where
  processingFee : ℚ
  isMicro : Bool
  balanceAmtCents : ℤ
  amount : ℚ
  idempotencyKey : String
deriving DecidableEq, Repr

/-- `generateRefundInfo(payment, amount, isMicro, idempotencyKey)`.  The two
`Payment`-module helpers live outside `src/` and are abstracted as
parameters: `fee` is `calculateAdminFeeInCents` (cents, micro-flag,
local-and-non-Amex flag) and `isLocalAndNonAmex` classifies the charge
source. -/
def generateRefundInfo (fee : ℤ → Bool → Bool → ℚ)
    (isLocalAndNonAmex : String → Bool) (charge : Charge) (amount : ℚ)
    (isMicro : Bool) (idempotencyKey : String) : Except String RefundInfo :=
  let balanceAmtCents : ℤ := charge.amount - charge.amount_refunded
  let refundAmtCents : ℤ := jsRound (amount * 100)
  let la : Bool := isLocalAndNonAmex charge.source
  if (balanceAmtCents : ℚ) ≥ amount * 100 - 1/10 then
    let updatedBalance : ℤ := balanceAmtCents - refundAmtCents
    .ok
      { processingFee :=
          (fee balanceAmtCents isMicro la - fee updatedBalance isMicro la) / 100
        isMicro := isMicro
        balanceAmtCents := balanceAmtCents
        amount := amount
        idempotencyKey := idempotencyKey }
  else
    .error "Requested refund exceeds amount paid for ticket"

/-- A sample admin-fee schedule used to instantiate witnesses. -/
def sampleAdminFee (cents : ℤ) (isMicro : Bool) (la : Bool) : ℚ :=
  if isMicro then (cents : ℚ) * 5 / 100
  else if la then (cents : ℚ) * 34 / 1000 + 50
  else (cents : ℚ) * 34 / 1000 + 70

/-- A sample source classifier used to instantiate witnesses. -/
def sampleIsLocalAndNonAmex (source : String) : Bool :=
  source == "visa-sg"

/-! ## Statement descriptor (`chargeSale`) -/

/-- The characters Stripe forbids in a statement descriptor:
`<`, `>`, double quote, apostrophe (the regex `/[<>"']/g`). -/
def stripeBadChar (c : Char) : Bool :=
  c = '<' || c = '>' || c = Char.ofNat 34 || c = Char.ofNat 39

/-- `.replace(/[<>"']/g, "")`. -/
def stripBadChars (s : List Char) : List Char :=
  s.filter (fun c => !stripeBadChar c)

/-- `companyInfo.smsOpCode || companyInfo.name` — JS `||` falls back on the
empty string as well as on null. -/
def companyDescriptorOf (smsOpCode : Option (List Char)) (name : List Char) :
    List Char :=
  match smsOpCode with
  | some s => if s = [] then name else s
  | none => name

/-- The statement descriptor computed by `chargeSale`:
`` `${companyDescriptor.substr(0, 10)},Ref#${transaction.id}` ``
then `.replace(/[<>"']/g, "").substr(0, 22)` — the 10-character truncation
happens before the bad characters are dropped. -/
def statementDescriptor (companyDescriptor txId : List Char) : List Char :=
  (stripBadChars (companyDescriptor.take 10 ++ (",Ref#".toList ++ txId))).take 22

/-- The claim's reading of the same computation: drop the bad characters
from the company descriptor first, then take 10 characters, then append
`,Ref#` and the id, then truncate to 22. -/
def statementDescriptorClaimed (companyDescriptor txId : List Char) : List Char :=
  ((stripBadChars companyDescriptor).take 10 ++ (",Ref#".toList ++ txId)).take 22

/-! ## `chargeSale` gateway decision -/

/-- A JavaScript value as stored in the `debit` column and compared by
`paymentValue === "0.00"`: a number or a string. -/
inductive JSVal
  | num (q : ℚ)
  | str (s : String)
deriving DecidableEq, Repr

/-- A call to `Payment.chargeCard`: the charged value, and whether it used
the saved payment info path (`customer`/`source`) rather than a fresh
Stripe token. -/
structure ChargeRequest where
  value : JSVal
  usesSavedPaymentInfo : Bool
deriving DecidableEq, Repr

/-- The observable outcome of the charging section of `chargeSale`: which
gateway call was made (if any) and the `paymentResource` written back onto
the Payment row (`chargeResult.id`, which is null when no call was made). -/
structure ChargeOutcome where
  gatewayCall : Option ChargeRequest
  paymentResource : Option String
deriving DecidableEq, Repr

/-- The charge decision of `chargeSale` (lines 964-985): skip the gateway
exactly when `paymentValue === "0.00"` (a strict string comparison), else
charge via the Stripe token if present, else via the saved
customer/source pair.  `gatewayChargeId` abstracts the id of the charge the
gateway returns. -/
def chargeSaleCharge (gatewayChargeId : ChargeRequest → String)
    (paymentValue : JSVal) (stripeToken : Option String)
    (customerId sourceId : Option String) : ChargeOutcome :=
  if paymentValue = .str "0.00" then
    ⟨none, none⟩
  else
    match stripeToken with
    | some _ =>
      ⟨some ⟨paymentValue, false⟩, some (gatewayChargeId ⟨paymentValue, false⟩)⟩
    | none =>
      match customerId, sourceId with
      | some _, some _ =>
        ⟨some ⟨paymentValue, true⟩, some (gatewayChargeId ⟨paymentValue, true⟩)⟩
      | _, _ => ⟨none, none⟩

/-! ## Booking checks: stops and booking window -/

/-- A ticket row as reachable through `tripStops[].tickets` for the
duplicate check. -/
structure TicketRec where
  id : ℕ
  userId : ℕ
  status : Status
deriving DecidableEq, Repr

/-- A trip stop: id, departure time (`ts.time.getTime()`, milliseconds since
epoch), and the tickets loaded for the duplicate check. -/
structure TripStop where
  id : ℕ
  time : ℤ
  tickets : List TicketRec
deriving DecidableEq, Repr

/-- The raw `bookingInfo` column before Joi validation: each field may be
absent, a string or a number. -/
structure RawBookingInfo where
  windowType : Option JSVal
  windowSize : Option JSVal
deriving DecidableEq, Repr

/-- A trip row as used by the order checks. -/
structure DbTrip where
  id : ℕ
  isRunning : Bool
  transportCompanyId : ℕ
  tripStops : List TripStop
  bookingInfo : Option RawBookingInfo
deriving DecidableEq, Repr

/-- A requested trip booking (`options.trips[i]`). -/
structure TripOrder where
  tripId : ℕ
  boardStopId : ℕ
  alightStopId : ℕ
  userId : ℕ
deriving DecidableEq, Repr

/-- Value of a decimal-digit run (most significant first). -/
def digitsToNat (s : List Char) : ℕ :=
  s.foldl (fun a c => a * 10 + (c.toNat - 48)) 0

/-- Parse of an unsigned decimal string: digits with at most one point and
at least one digit (`"300000"`, `"1.5"`, `".5"`, `"5."`); anything else is
`none`. -/
def parseUnsignedDecimal (s : List Char) : Option ℚ :=
  let intPart := s.takeWhile Char.isDigit
  let rest := s.dropWhile Char.isDigit
  match rest with
  | [] => if intPart = [] then none else some (mkRat (digitsToNat intPart) 1)
  | c :: frac =>
    if c = '.' ∧ frac.all Char.isDigit ∧ (intPart ≠ [] ∨ frac ≠ []) then
      some (mkRat (digitsToNat intPart * 10 ^ frac.length + digitsToNat frac)
        (10 ^ frac.length))
    else none

/-- The number a string coerces to under `Joi.number()` (JavaScript's
finite-`Number` strings): an optional sign followed by a plain decimal.
Exponent, hexadecimal, whitespace-padded and `Infinity` forms are not
modelled; no `bookingInfo` in this repository uses them. -/
def parseJsDecimal (s : List Char) : Option ℚ :=
  match s with
  | '-' :: rest => (parseUnsignedDecimal rest).map (fun q => -q)
  | '+' :: rest => parseUnsignedDecimal rest
  | _ => parseUnsignedDecimal s

/-- Joi validation of `dbTrip.bookingInfo || {}` against
`{windowType: Joi.valid(["stop","firstStop"]).default("stop"),
windowSize: Joi.number().default(0)}.unknown()`; `none` models a failed
validation.  Joi runs with its default `convert: true`, so a string-valued
`windowSize` that reads as a number (e.g. `"300000"`) is coerced to that
number, while a non-numeric string fails validation; a number-valued
`windowType` never matches the two allowed strings and fails. -/
def validateBookingInfo (raw : Option RawBookingInfo) : Option (String × ℚ) :=
  let r := raw.getD ⟨none, none⟩
  let wt : Option String :=
    match r.windowType with
    | none => some "stop"
    | some (.str s) => if s = "stop" ∨ s = "firstStop" then some s else none
    | some (.num _) => none
  let ws : Option ℚ :=
    match r.windowSize with
    | none => some 0
    | some (.num q) => some q
    | some (.str s) => parseJsDecimal s.toList
  match wt, ws with
  | some a, some b => some (a, b)
  | _, _ => none

/-- The `(windowType, windowSize)` the check actually uses: the validated
values, or the defaults `("stop", 0)` when validation failed. -/
def effectiveBookingInfo (raw : Option RawBookingInfo) : String × ℚ :=
  (validateBookingInfo raw).getD ("stop", 0)

/-- `_.min` over a list; only ever applied to nonempty lists here (a found
board stop guarantees `tripStops` is nonempty). -/
def jsMinList : List ℚ → ℚ
  | [] => 0
  | x :: xs => xs.foldl min x

/-- The cutoff computed by `checkStopsAndBookingWindow`: for `firstStop`
the minimum over all trip-stop times plus the window, otherwise the minimum
of `boardStop.time + windowSize` and `alightStop.time + windowSize`. -/
def bookingCutOff (dbTrip : DbTrip) (boardStop alightStop : TripStop) : ℚ :=
  let wtws := effectiveBookingInfo dbTrip.bookingInfo
  if wtws.1 = "firstStop" then
    jsMinList (dbTrip.tripStops.map (fun ts => (ts.time : ℚ))) + wtws.2
  else
    min ((boardStop.time : ℚ) + wtws.2) ((alightStop.time : ℚ) + wtws.2)

/-- The cutoff as the claim words it: `min(boardStop.time, alightStop.time)
+ windowSize` in the `stop` case. -/
def claimCutOff (dbTrip : DbTrip) (boardStop alightStop : TripStop) : ℚ :=
  let wtws := effectiveBookingInfo dbTrip.bookingInfo
  if wtws.1 = "firstStop" then
    jsMinList (dbTrip.tripStops.map (fun ts => (ts.time : ℚ))) + wtws.2
  else
    min (boardStop.time : ℚ) (alightStop.time : ℚ) + wtws.2

/-- The part of `checkStopsAndBookingWindow` below the stop lookups. -/
def checkBookingWindowInner (checkBookingWindow : Bool) (now : ℤ)
    (dbTrip : DbTrip) (boardStop alightStop : TripStop) :
    Except String Unit :=
  if !checkBookingWindow then .ok ()
  else if (now : ℚ) > bookingCutOff dbTrip boardStop alightStop then
    .error "You may not book this trip later than the cutoff"
  else .ok ()

/-- `checkStopsAndBookingWindow(checkBookingWindow, now)(dbTrip, rqTrip)`:
reject outright when either requested stop is not among the trip's stops;
then, only when `checkBookingWindow` is set, reject when `now` is past the
cutoff. -/
def checkStopsAndBookingWindow (checkBookingWindow : Bool) (now : ℤ)
    (dbTrip : DbTrip) (rqTrip : TripOrder) : Except String Unit :=
  match dbTrip.tripStops.find? (fun ts => ts.id == rqTrip.boardStopId),
      dbTrip.tripStops.find? (fun ts => ts.id == rqTrip.alightStopId) with
  | some boardStop, some alightStop =>
    checkBookingWindowInner checkBookingWindow now dbTrip boardStop alightStop
  | _, _ => .error "Invalid stop given for trip"

/-- A sample trip used to instantiate witnesses: two stops at times 1000
and 2000 (ms), no `bookingInfo`. -/
def sampleTrip : DbTrip :=
  ⟨5, true, 9, [⟨1, 1000, []⟩, ⟨2, 2000, []⟩], none⟩

/-- A sample trip whose `bookingInfo` stores `windowSize` as the numeric
string `"300000"`, which Joi coerces to the number 300000. -/
def sampleStringWindowTrip : DbTrip :=
  ⟨6, true, 9, [⟨1, 1000, []⟩, ⟨2, 2000, []⟩],
    some ⟨some (.str "stop"), some (.str "300000")⟩⟩

/-- `checkNoDuplicates()(dbTrip, rqTrip)`: reject when the user already has
a `valid` or `pending` ticket on any stop of the trip. -/
def checkNoDuplicates (dbTrip : DbTrip) (rqTrip : TripOrder) :
    Except String Unit :=
  match ((dbTrip.tripStops.map (fun ts => ts.tickets)).flatten).find?
      (fun ticket =>
        (ticket.status == .valid || ticket.status == .pending) &&
          ticket.userId == rqTrip.userId) with
  | some _ => .error "User already has a ticket for the trip"
  | none => .ok ()

/-- Run a check over each element in order, stopping at the first error —
the behaviour of the `_.each` loops in `runOrderChecks`, where a thrown
`TransactionError` aborts the iteration. -/
def checkAll (f : α → Except String Unit) : List α → Except String Unit
  | [] => .ok ()
  | x :: xs =>
    match f x with
    | .error e => .error e
    | .ok _ => checkAll f xs

/-- The `checks` option bag of `prepareTicketSale`. -/
structure CheckOptions where
  ensureAvailability : Bool
  noDuplicates : Bool
  bookingWindow : Bool
deriving DecidableEq, Repr

/-- The body of the `_.each(tripOrders)` loop in `runOrderChecks`
(lines 739-749).  With the `bookingWindow` flag on,
`checkValidBookingWindow()` builds the check closure and applies it to
`(dbTrip, tripOrder)`; a trip id absent from `tripsById` passes
`undefined` and the closure's `dbTrip.tripStops.findIndex` throws a
`TypeError`.  With the flag off, line 744 reads
`checkValidTripStop()(dbTrip, tripOrder)`, but `checkValidTripStop`
(line 1106) is already the check closure, not a factory: the call `()`
invokes it with no arguments, so it dereferences `undefined.tripStops`
and throws a `TypeError` before looking at the order at all.  Afterwards
the duplicate check runs when its flag is on. -/
def perOrderCheck (now : ℤ) (tripsById : List DbTrip)
    (checkOptions : CheckOptions) (rqTrip : TripOrder) : Except String Unit :=
  match (if checkOptions.bookingWindow then
      match tripsById.find? (fun t => t.id == rqTrip.tripId) with
      | none => .error "TypeError: Cannot read tripStops of undefined"
      | some dbTrip => checkStopsAndBookingWindow true now dbTrip rqTrip
    else
      (.error "TypeError: Cannot read tripStops of undefined" :
        Except String Unit)) with
  | .error e => .error e
  | .ok _ =>
    if checkOptions.noDuplicates then
      match tripsById.find? (fun t => t.id == rqTrip.tripId) with
      | none => .error "TypeError: Cannot read tripStops of undefined"
      | some dbTrip => checkNoDuplicates dbTrip rqTrip
    else .ok ()

/-- `runOrderChecks(tb, checkOptions)`: the cancelled-trip loop over
`tripsById`, the per-order loop, then the single-company assertion.
`now` is `Date.now()` captured when `checkValidBookingWindow()` builds the
check. -/
def runOrderChecks (now : ℤ) (tripsById : List DbTrip)
    (tripOrders : List TripOrder) (checkOptions : CheckOptions) :
    Except String Unit :=
  match checkAll (fun trip =>
      if trip.isRunning then .ok ()
      else .error "Trip has been cancelled") tripsById with
  | .error e => .error e
  | .ok _ =>
    match checkAll (perOrderCheck now tripsById checkOptions) tripOrders with
    | .error e => .error e
    | .ok _ =>
      if ((tripsById.map (fun t => t.transportCompanyId)).dedup).length = 1
      then .ok ()
      else .error "Payment to multiple companies is not yet supported"

/-! ## `TransactionBuilder` and `absorbSmallPayments` -/

/-- One entry of `builder.items` for a ticket sale: the ticket id, the
running outstanding amount (`transactionItem.notes.outstanding`), the
cumulative `ticket.notes.discountValue`, and the discount codes applied to
the ticket. -/
structure SaleItem where
  ticketId : ℕ
  outstanding : ℚ
  discountValue : ℚ
  discountCodes : List String
deriving DecidableEq, Repr

/-- A `discount` transaction item: its debit, its description, and its
per-ticket allocation (`discount.discountAmounts`, keyed by ticket id). -/
structure DiscountLine where
  debit : ℚ
  description : String
  discountAmounts : List (ℕ × ℚ)
deriving DecidableEq, Repr

/-- Modelled from the spec: the `TransactionBuilder` of
`src/lib/transactions/builder.js` is not among the sources; §4.1 gives its
state.  Restricted to what the small-payment absorber and payment
finalization touch: the per-ticket sale items and the amounts of each
transaction-item class. -/
structure TransactionBuilder where
  items : List SaleItem
  ticketSaleCredits : List ℚ
  discountLines : List DiscountLine
  paymentDebits : List ℚ
  transferCredits : List ℚ
  accountDebits : List ℚ
deriving DecidableEq, Repr

/-- Modelled from the spec: `_excessCredit()` is `Σ credit − Σ debit`
across all items (§4.1). -/
def TransactionBuilder.excessCredit (tb : TransactionBuilder) : ℚ :=
  (tb.ticketSaleCredits.sum + tb.transferCredits.sum) -
    ((tb.discountLines.map (fun d => d.debit)).sum + tb.paymentDebits.sum +
      tb.accountDebits.sum)

/-- `Σ debit − Σ credit` over the builder's items: the quantity the
zero-sum invariant bounds. -/
def TransactionBuilder.signedSum (tb : TransactionBuilder) : ℚ :=
  ((tb.discountLines.map (fun d => d.debit)).sum + tb.paymentDebits.sum +
      tb.accountDebits.sum) -
    (tb.ticketSaleCredits.sum + tb.transferCredits.sum)

/-- The total of the builder's `payment` lines. -/
def TransactionBuilder.paymentTotal (tb : TransactionBuilder) : ℚ :=
  tb.paymentDebits.sum

/-- Modelled from the spec: `outstandingAmounts(items)` lists each ticket's
current outstanding amount (§4.8). -/
def outstandingAmounts (items : List SaleItem) : List ℚ :=
  items.map (fun it => it.outstanding)

/-- Modelled from the spec: `updateTicketsWithDiscounts(items, code,
amounts, refund?)` subtracts each per-item allocation from the item's
outstanding amount and accumulates it into `notes.discountValue`, recorded
under `code` (§4.1, §4.2). -/
def updateTicketsWithDiscounts (items : List SaleItem) (code : String)
    (amounts : List ℚ) : List SaleItem :=
  (items.zip amounts).map fun p =>
    { p.1 with
      outstanding := p.1.outstanding - p.2
      discountValue := p.1.discountValue + p.2
      discountCodes := p.1.discountCodes ++ [code] }

/-- Modelled from the spec: `finalizeForPayment` computes the excess credit
and, when it is positive, appends the `payment` debit, the company
`transfer` credit and the mirroring COGS `account` debit (§4.1). -/
def TransactionBuilder.finalizeForPayment (tb : TransactionBuilder) :
    TransactionBuilder :=
  let excess := tb.excessCredit
  if 0 < excess then
    { tb with
      paymentDebits := tb.paymentDebits ++ [excess]
      transferCredits := tb.transferCredits ++ [excess]
      accountDebits := tb.accountDebits ++ [excess] }
  else tb

/-- `absorbSmallPayments(tb)` (from the source): when the excess credit is
positive and `excess*100` is at most `Payment.minTransactionChargeInCents()`
(gateway adapter, outside `src/`, abstracted as a parameter), clone the
builder, convert each ticket's outstanding amount into an
`[absorb-small-payments]` discount on the ticket, and push a single
discount line whose debit is the whole excess and whose `discountAmounts`
map each ticket id to its outstanding amount. -/
def absorbSmallPayments (minTransactionChargeInCents : ℚ)
    (tb : TransactionBuilder) : TransactionBuilder :=
  let excess := tb.excessCredit
  if 0 < excess ∧ excess * 100 ≤ minTransactionChargeInCents then
    { tb with
      items := updateTicketsWithDiscounts tb.items "[absorb-small-payments]"
        (outstandingAmounts tb.items)
      discountLines := tb.discountLines ++
        [{ debit := excess
           description := "Transaction fee absorbed"
           discountAmounts := tb.items.map
             (fun it => (it.ticketId, it.outstanding)) }] }
  else tb

/-- The builder of the spec's small-residual scenario: one ticket with
0.30 outstanding. -/
def sampleSmallCartBuilder : TransactionBuilder :=
  { items := [⟨1, 3/10, 0, []⟩]
    ticketSaleCredits := [3/10]
    discountLines := []
    paymentDebits := []
    transferCredits := []
    accountDebits := [] }

/-! ## `checkExpectedPrice` -/

/-- `checkExpectedPrice(tb, price)`: skip when `price` is null, otherwise
require `|price - payment.debit| < 0.001`.  `paymentDebit` is the `debit` of
the single `payment` transaction item of the builder. -/
def checkExpectedPrice (paymentDebit : ℚ) : Option ℚ → Except String Unit
  | none => .ok ()
  | some p =>
    if |p - paymentDebit| < 1/1000 then .ok ()
    else .error "The price has changed since you last viewed it"

end Beeline

namespace Beeline

/-- C1 (counterexample): the claim says `validateTxn` throws whenever
`|sumOfDebit| ≥ 1e-6`, but the source test is strict (`> 0.000001`):
a transaction whose items sum to exactly 1e-6 is accepted. -/
theorem validateTxn_accepts_sum_of_exactly_1e6 :
    (1/1000000 : ℚ) ≤ |sumOfDebit [⟨some 1, some (1/1000000), none⟩]| ∧
    validateTxn [⟨some 1, some (1/1000000), none⟩] =
      .ok [⟨some 1, some (1/1000000), none⟩] := by
  have hsum : sumOfDebit [⟨some 1, some (1/1000000), none⟩] = 1/1000000 := by
    norm_num [sumOfDebit, signedAmount, numTruthy, bne_iff_ne]
  have habs : |sumOfDebit [⟨some 1, some (1/1000000), none⟩]| = 1/1000000 := by
    rw [hsum]; exact abs_of_pos (by norm_num)
  refine ⟨le_of_eq habs.symm, ?_⟩
  unfold validateTxn
  rw [if_neg (by decide), if_neg (by rw [habs]; norm_num)]

/-- C1 (amended): for transactions whose items all carry a truthy `itemId`,
`validateTxn` returns its input unchanged exactly when the absolute signed
sum of the items (debits positive, credits negative) is at most `1e-6`, and
throws exactly when that absolute sum is strictly greater than `1e-6`. -/
theorem validateTxn_ok_iff (items : List TxnItem)
    (h : items.all itemIdTruthy = true) :
    validateTxn items = .ok items ↔ |sumOfDebit items| ≤ 1/1000000 := by
  unfold validateTxn
  rw [if_neg (by simp [h])]
  split_ifs with hgt
  · exact iff_of_false (by simp) (not_le.mpr hgt)
  · exact iff_of_true rfl (not_lt.mp hgt)

/-- C1 (witness for the amended theorem): a concrete two-item balanced
transaction is accepted. -/
theorem validateTxn_ok_iff_witness :
    validateTxn [⟨some 1, none, some 5⟩, ⟨some 2, some 5, none⟩] =
      .ok [⟨some 1, none, some 5⟩, ⟨some 2, some 5, none⟩] :=
  (validateTxn_ok_iff [⟨some 1, none, some 5⟩, ⟨some 2, some 5, none⟩]
    (by decide)).mpr
    (by norm_num [sumOfDebit, signedAmount, numTruthy, bne_iff_ne])

/-- C7: with a non-null expected price `p`, the workflows fail with the
`priceChanged` error exactly when `|p − payment.debit| ≥ 1e-3`, and succeed
past the check when the difference is below `1e-3`; a null expected price
skips the check entirely. -/
theorem checkExpectedPrice_spec (paymentDebit p : ℚ) :
    (checkExpectedPrice paymentDebit (some p) =
        .error "The price has changed since you last viewed it" ↔
      1/1000 ≤ |p - paymentDebit|) ∧
    checkExpectedPrice paymentDebit none = .ok () := by
  refine ⟨?_, rfl⟩
  show (if |p - paymentDebit| < 1/1000 then Except.ok () else
    Except.error "The price has changed since you last viewed it") = _ ↔ _
  split_ifs with hlt
  · exact iff_of_false (by simp) (not_le.mpr hlt)
  · exact iff_of_true rfl (not_lt.mp hlt)

/-- C2 (counterexample): the claim allows a `1e-4` slack in the refund
bound, but the source compares `possibleRefundAmt >= targetAmt` exactly.
With sale credit 10, no discount, `0.00005` previously refunded and
`targetAmt = 10`, both of the claim's conditions pass
(`|10 − 10| < 1e-4` and `0.00005 + 10 ≤ 10 + 1e-4`), yet the code raises
the exceeds-allowed-refund error. -/
theorem ticketRefund_bound_has_no_tolerance :
    (jsAbs ((10:ℚ) - (10 - 0)) < 1/10000 ∧
      (1/20000 : ℚ) + 10 ≤ 10 - 0 + 1/10000) ∧
    prepareTicketRefundChecks ⟨10, .valid, 10, 0, 10, 1/20000⟩ =
      .error "Refund requested causes total refunded to exceed allowed refund amount" := by
  refine ⟨⟨by norm_num [jsAbs], by norm_num⟩, ?_⟩
  unfold prepareTicketRefundChecks
  rw [if_neg (by simp), if_neg (by norm_num), if_neg (by norm_num [jsAbs]),
    if_pos (by norm_num)]

/-- C2 (amended): for a ticket in status `valid` or `void` whose sale
transaction carries a positive payment, `prepareTicketRefund` accepts the
request — pushing a `ticketRefund` item with `debit = targetAmt` — exactly
when `|targetAmt − (ticketSale.credit − discountValue)| < 1e-4` and
`previouslyRefunded + targetAmt ≤ ticketSale.credit − discountValue`
(no tolerance on the bound); otherwise it raises a `TransactionError`. -/
theorem prepareTicketRefundChecks_ok_iff (c : TicketRefundContext)
    (hstatus : c.ticketStatus = .valid ∨ c.ticketStatus = .void)
    (hpay : 0 < c.paymentDebit) :
    prepareTicketRefundChecks c = .ok c.targetAmt ↔
      |c.targetAmt - (c.ticketSaleCredit - c.discountValue)| < 1/10000 ∧
      c.previouslyRefunded + c.targetAmt ≤ c.ticketSaleCredit - c.discountValue := by
  unfold prepareTicketRefundChecks
  rw [if_neg (not_not_intro hstatus), if_neg (not_not_intro hpay), jsAbs_eq_abs]
  by_cases h1 : |c.targetAmt - (c.ticketSaleCredit - c.discountValue)| < 1/10000
  · rw [if_neg (not_not_intro h1)]
    by_cases h2 : c.ticketSaleCredit - c.discountValue - c.previouslyRefunded ≥
        c.targetAmt
    · rw [if_neg (not_not_intro h2)]
      exact iff_of_true rfl ⟨h1, by linarith⟩
    · rw [if_pos h2]
      exact iff_of_false (by simp) fun h => h2 (by linarith [h.2])
  · rw [if_pos h1]
    exact iff_of_false (by simp) fun h => h1 h.1

/-- C2 (witness for the amended theorem): a full refund of an undiscounted
10.00 ticket with nothing previously refunded is accepted with debit 10. -/
theorem prepareTicketRefundChecks_ok_iff_witness :
    prepareTicketRefundChecks ⟨10, .valid, 10, 0, 10, 0⟩ = .ok 10 :=
  (prepareTicketRefundChecks_ok_iff ⟨10, .valid, 10, 0, 10, 0⟩
    (Or.inl rfl) (by norm_num)).mpr ⟨by norm_num, by norm_num⟩

/-- C3 (counterexample): refunding a `void` ticket and then running the
recorded undo leaves the ticket `valid`, not in its prior `void` status —
the undo in `prepareTicketRefund` writes `status: "valid"`
unconditionally. -/
theorem ticketRefund_undo_not_prior_for_void :
    (ticketRefundStatusFlow .void).map (fun f => f.undo f.refunded) =
      .ok .valid ∧
    Status.valid ≠ Status.void :=
  ⟨rfl, by decide⟩

/-- C3 (amended): the undo recorded by `prepareRoutePassRefund` restores a
route pass to its captured prior status (`valid`, `void` or `expired`),
while the undo recorded by `prepareTicketRefund` always sets the ticket to
`valid` — which coincides with the prior status only when the ticket was
`valid` before the refund. -/
theorem refundStatusFlow_undo (prior : Status) :
    (∀ f, routePassRefundStatusFlow prior = .ok f → f.undo f.refunded = prior) ∧
    (∀ g, ticketRefundStatusFlow prior = .ok g → g.undo g.refunded = .valid) := by
  constructor
  · intro f hf
    unfold routePassRefundStatusFlow at hf
    by_cases h : prior = .valid ∨ prior = .void ∨ prior = .expired
    · rw [if_pos h] at hf
      cases hf; rfl
    · rw [if_neg h] at hf
      exact absurd hf (by simp)
  · intro g hg
    unfold ticketRefundStatusFlow at hg
    by_cases h : prior = .valid ∨ prior = .void
    · rw [if_pos h] at hg
      cases hg; rfl
    · rw [if_neg h] at hg
      exact absurd hg (by simp)

/-- C3 (witness): an `expired` route pass is restored to `expired` by its
undo, and a refunded ticket's undo yields `valid`. -/
theorem refundStatusFlow_undo_witness :
    RefundStatusFlow.undo ⟨.refunded, fun _ => .expired⟩ .refunded = .expired ∧
    RefundStatusFlow.undo ⟨.refunded, fun _ => .valid⟩ .refunded = .valid :=
  ⟨(refundStatusFlow_undo .expired).1 ⟨.refunded, fun _ => .expired⟩ rfl,
   (refundStatusFlow_undo .valid).2 ⟨.refunded, fun _ => .valid⟩ rfl⟩

/-- The code's cutoff (min of the shifted stop times) coincides with the
claim's reading (shifted min of the stop times). -/
theorem bookingCutOff_eq_claimCutOff (trip : DbTrip)
    (boardStop alightStop : TripStop) :
    bookingCutOff trip boardStop alightStop =
      claimCutOff trip boardStop alightStop := by
  simp only [bookingCutOff, claimCutOff]
  split_ifs
  · rfl
  · rw [min_add_add_right]

/-- C5: a board or alight stop that is not among the trip's stops is
rejected whether or not the booking window is checked; when both stops are
present, the booking-window check passes exactly when `now ≤ cutoff`, with
`cutoff = min(tripStops.time) + windowSize` for `windowType = firstStop`
and `cutoff = min(boardStop.time, alightStop.time) + windowSize` for
`windowType = stop`, using defaults `("stop", 0)` when `bookingInfo` fails
validation. -/
theorem checkStopsAndBookingWindow_spec (now : ℤ) (trip : DbTrip)
    (rq : TripOrder) :
    (∀ cw : Bool,
      (trip.tripStops.find? (fun ts => ts.id == rq.boardStopId) = none ∨
        trip.tripStops.find? (fun ts => ts.id == rq.alightStopId) = none) →
      checkStopsAndBookingWindow cw now trip rq =
        .error "Invalid stop given for trip") ∧
    (∀ boardStop alightStop,
      trip.tripStops.find? (fun ts => ts.id == rq.boardStopId) =
        some boardStop →
      trip.tripStops.find? (fun ts => ts.id == rq.alightStopId) =
        some alightStop →
      (checkStopsAndBookingWindow true now trip rq = .ok () ↔
        (now : ℚ) ≤ claimCutOff trip boardStop alightStop)) := by
  constructor
  · intro cw hmiss
    unfold checkStopsAndBookingWindow
    rcases hmiss with h | h
    · rw [h]
    · rw [h]
      cases trip.tripStops.find? (fun ts => ts.id == rq.boardStopId) <;> rfl
  · intro boardStop alightStop hb ha
    unfold checkStopsAndBookingWindow
    rw [hb, ha]
    show (if (now : ℚ) > bookingCutOff trip boardStop alightStop then
        (Except.error "You may not book this trip later than the cutoff" :
          Except String Unit)
      else .ok ()) = .ok () ↔ _
    rw [bookingCutOff_eq_claimCutOff]
    by_cases hnow : (now : ℚ) > claimCutOff trip boardStop alightStop
    · rw [if_pos hnow]
      exact iff_of_false (by simp) (not_le.mpr hnow)
    · rw [if_neg hnow]
      exact iff_of_true rfl (not_lt.mp hnow)

/-- C5 (witness): booking at time 500 against stops at 1000/2000 with
default window passes; booking at 200000 passes on a trip whose
`windowSize` is the numeric string `"300000"` (Joi coercion: cutoff
1000 + 300000); and a request naming an unknown stop id is rejected even
with the booking-window check off. -/
theorem checkStopsAndBookingWindow_spec_witness :
    checkStopsAndBookingWindow true 500 sampleTrip ⟨5, 1, 2, 7⟩ = .ok () ∧
    checkStopsAndBookingWindow true 200000 sampleStringWindowTrip
      ⟨6, 1, 2, 7⟩ = .ok () ∧
    checkStopsAndBookingWindow false 500 sampleTrip ⟨5, 1, 3, 7⟩ =
      .error "Invalid stop given for trip" := by
  have heff : effectiveBookingInfo sampleStringWindowTrip.bookingInfo =
      ("stop", 300000) := by decide
  refine ⟨((checkStopsAndBookingWindow_spec 500 sampleTrip ⟨5, 1, 2, 7⟩).2
      ⟨1, 1000, []⟩ ⟨2, 2000, []⟩ rfl rfl).mpr
      (by norm_num [claimCutOff, effectiveBookingInfo, validateBookingInfo,
        jsMinList, sampleTrip, min_def]),
    ((checkStopsAndBookingWindow_spec 200000 sampleStringWindowTrip
        ⟨6, 1, 2, 7⟩).2 ⟨1, 1000, []⟩ ⟨2, 2000, []⟩ rfl rfl).mpr ?_,
    (checkStopsAndBookingWindow_spec 500 sampleTrip ⟨5, 1, 3, 7⟩).1 false
      (Or.inr rfl)⟩
  simp only [claimCutOff]
  rw [heff, if_neg (by decide : ¬(("stop", (300000 : ℚ)).1 = "firstStop"))]
  norm_num [min_def]

theorem checkAll_ok_iff {α : Type} (f : α → Except String Unit)
    (l : List α) :
    checkAll f l = .ok () ↔ ∀ x ∈ l, f x = .ok () := by
  induction l with
  | nil => simp [checkAll]
  | cons x xs ih =>
    cases hfx : f x with
    | error e =>
      refine iff_of_false ?_ ?_
      · rw [checkAll, hfx]
        simp
      · intro hall
        rw [hall x (List.mem_cons_self x xs)] at hfx
        exact absurd hfx (by simp)
    | ok u =>
      cases u
      rw [checkAll, hfx]
      constructor
      · intro h y hy
        rcases List.mem_cons.mp hy with rfl | hmem
        · exact hfx
        · exact ih.mp h y hmem
      · intro hall
        exact ih.mpr fun y hy => hall y (List.mem_cons.mpr (Or.inr hy))

/-- When either requested stop is missing, the check fails for any value of
the booking-window flag. -/
theorem checkStops_stops_of_ok (cw : Bool) (now : ℤ) (t : DbTrip)
    (rq : TripOrder)
    (h : checkStopsAndBookingWindow cw now t rq = .ok ()) :
    (∃ bs, t.tripStops.find? (fun ts => ts.id == rq.boardStopId) = some bs) ∧
    (∃ asp, t.tripStops.find? (fun ts => ts.id == rq.alightStopId) =
      some asp) := by
  unfold checkStopsAndBookingWindow at h
  cases hb : t.tripStops.find? (fun ts => ts.id == rq.boardStopId) with
  | none =>
    rw [hb] at h
    exact absurd h (by simp)
  | some bs =>
    cases ha : t.tripStops.find? (fun ts => ts.id == rq.alightStopId) with
    | none =>
      rw [hb, ha] at h
      exact absurd h (by simp)
    | some asp => exact ⟨⟨bs, rfl⟩, ⟨asp, rfl⟩⟩

/-- With the booking-window flag off the check passes exactly when both
stops are present. -/
theorem checkStops_false_ok_iff (now : ℤ) (t : DbTrip) (rq : TripOrder) :
    checkStopsAndBookingWindow false now t rq = .ok () ↔
      (∃ bs, t.tripStops.find? (fun ts => ts.id == rq.boardStopId) =
        some bs) ∧
      (∃ asp, t.tripStops.find? (fun ts => ts.id == rq.alightStopId) =
        some asp) := by
  constructor
  · exact checkStops_stops_of_ok false now t rq
  · rintro ⟨⟨bs, hb⟩, ⟨asp, ha⟩⟩
    unfold checkStopsAndBookingWindow
    rw [hb, ha]
    rfl

theorem runOrderChecks_ok_iff (now : ℤ) (tripsById : List DbTrip)
    (tripOrders : List TripOrder) (opts : CheckOptions) :
    runOrderChecks now tripsById tripOrders opts = .ok () ↔
      checkAll (fun trip => if trip.isRunning then .ok ()
          else .error "Trip has been cancelled") tripsById = .ok () ∧
      checkAll (perOrderCheck now tripsById opts) tripOrders = .ok () ∧
      ((tripsById.map (fun t => t.transportCompanyId)).dedup).length = 1 := by
  unfold runOrderChecks
  cases h1 : checkAll (fun trip => if trip.isRunning then .ok ()
      else .error "Trip has been cancelled") tripsById with
  | error e => simp
  | ok u =>
    cases u
    cases h2 : checkAll (perOrderCheck now tripsById opts) tripOrders with
    | error e => simp
    | ok u =>
      cases u
      by_cases h3 :
          ((tripsById.map (fun t => t.transportCompanyId)).dedup).length = 1
      · rw [if_pos h3]
        simp [h3]
      · rw [if_neg h3]
        simp [h3]

/-- C9 (code bug): with the booking-window flag off, `runOrderChecks`
fails on every order — here a running trip whose requested stops are both
valid (the bare stop check itself accepts them), a single transport
company, and all three flags false — because line 744 calls
`checkValidTripStop()(dbTrip, tripOrder)` while `checkValidTripStop`
(line 1106) is already the check closure, not a factory: the closure runs
with no arguments and throws a `TypeError` instead of performing the
valid-stops check that the claim (and the surrounding code) intends. -/
theorem runOrderChecks_typeErrors_when_window_flag_off :
    checkStopsAndBookingWindow false 500 sampleTrip ⟨5, 1, 2, 7⟩ = .ok () ∧
    (∀ trip ∈ [sampleTrip], trip.isRunning = true) ∧
    (([sampleTrip].map (fun t => t.transportCompanyId)).dedup).length = 1 ∧
    runOrderChecks 500 [sampleTrip] [⟨5, 1, 2, 7⟩] ⟨false, false, false⟩ =
      .error "TypeError: Cannot read tripStops of undefined" :=
  ⟨rfl, by decide, by decide, rfl⟩

theorem signedSum_eq_neg_excessCredit (tb : TransactionBuilder) :
    tb.signedSum = -tb.excessCredit := by
  unfold TransactionBuilder.signedSum TransactionBuilder.excessCredit
  ring

/-- C4: when the excess credit is positive and within the gateway minimum,
`absorbSmallPayments` appends exactly one discount line carrying the whole
excess as debit, allocated per ticket at its current outstanding amount;
the absorbed builder's excess credit is zero, so the subsequent
`finalizeForPayment` appends no payment line (the payment total stays 0 in
the sale workflow, where no payment line exists yet) and the signed sum of
the finalized builder is exactly zero, preserving the zero-sum
invariant. -/
theorem absorbSmallPayments_spec (minCharge : ℚ) (tb : TransactionBuilder)
    (hpos : 0 < tb.excessCredit)
    (hmin : tb.excessCredit * 100 ≤ minCharge) :
    (absorbSmallPayments minCharge tb).discountLines =
      tb.discountLines ++
        [{ debit := tb.excessCredit
           description := "Transaction fee absorbed"
           discountAmounts := tb.items.map
             (fun it => (it.ticketId, it.outstanding)) }] ∧
    (absorbSmallPayments minCharge tb).excessCredit = 0 ∧
    (tb.paymentDebits = [] →
      ((absorbSmallPayments minCharge tb).finalizeForPayment).paymentTotal =
        0) ∧
    ((absorbSmallPayments minCharge tb).finalizeForPayment).signedSum =
      0 := by
  have habs : absorbSmallPayments minCharge tb =
      { tb with
        items := updateTicketsWithDiscounts tb.items
          "[absorb-small-payments]" (outstandingAmounts tb.items)
        discountLines := tb.discountLines ++
          [{ debit := tb.excessCredit
             description := "Transaction fee absorbed"
             discountAmounts := tb.items.map
               (fun it => (it.ticketId, it.outstanding)) }] } := by
    simp only [absorbSmallPayments]
    rw [if_pos ⟨hpos, hmin⟩]
  have h0 : (absorbSmallPayments minCharge tb).excessCredit = 0 := by
    rw [habs]
    unfold TransactionBuilder.excessCredit
    simp only [List.map_append, List.sum_append, List.map_cons,
      List.sum_cons, List.map_nil, List.sum_nil]
    ring
  have hpd : (absorbSmallPayments minCharge tb).paymentDebits =
      tb.paymentDebits := by
    rw [habs]
  have hfin : (absorbSmallPayments minCharge tb).finalizeForPayment =
      absorbSmallPayments minCharge tb := by
    simp only [TransactionBuilder.finalizeForPayment, h0]
    rw [if_neg (lt_irrefl 0)]
  refine ⟨by rw [habs], h0, ?_, ?_⟩
  · intro hpay
    rw [TransactionBuilder.paymentTotal, hfin, hpd, hpay]
    rfl
  · rw [hfin, signedSum_eq_neg_excessCredit, h0, neg_zero]

/-- C4 (witness): the spec's scenario — one ticket with 0.30 outstanding
and a 50-cent gateway minimum — emits a 0.30 absorb discount allocated to
the ticket, and the finalized builder has payment 0 and signed sum 0. -/
theorem absorbSmallPayments_spec_witness :
    (absorbSmallPayments 50 sampleSmallCartBuilder).discountLines =
      [{ debit := sampleSmallCartBuilder.excessCredit
         description := "Transaction fee absorbed"
         discountAmounts := [(1, 3/10)] }] ∧
    ((absorbSmallPayments 50
        sampleSmallCartBuilder).finalizeForPayment).paymentTotal = 0 ∧
    ((absorbSmallPayments 50
        sampleSmallCartBuilder).finalizeForPayment).signedSum = 0 := by
  have hpos : 0 < sampleSmallCartBuilder.excessCredit := by
    norm_num [TransactionBuilder.excessCredit, sampleSmallCartBuilder]
  have hmin : sampleSmallCartBuilder.excessCredit * 100 ≤ 50 := by
    norm_num [TransactionBuilder.excessCredit, sampleSmallCartBuilder]
  have h := absorbSmallPayments_spec 50 sampleSmallCartBuilder hpos hmin
  exact ⟨h.1, h.2.2.1 rfl, h.2.2.2⟩

/-- C8: with `balanceAmtCents = charge.amount − charge.amount_refunded`,
`generateRefundInfo` raises a `TransactionError` when
`balanceAmtCents < amount·100 − 0.1`, and otherwise returns a refund info
whose `processingFee` is
`(fee(balanceAmtCents) − fee(balanceAmtCents − round(amount·100))) / 100`,
with `fee` parameterized by `isMicro` and `isLocalAndNonAmex(source)`. -/
theorem generateRefundInfo_spec (fee : ℤ → Bool → Bool → ℚ)
    (la : String → Bool) (charge : Charge) (amount : ℚ) (isMicro : Bool)
    (key : String) :
    (((charge.amount - charge.amount_refunded : ℤ) : ℚ) < amount * 100 - 1/10 →
      generateRefundInfo fee la charge amount isMicro key =
        .error "Requested refund exceeds amount paid for ticket") ∧
    (amount * 100 - 1/10 ≤ ((charge.amount - charge.amount_refunded : ℤ) : ℚ) →
      generateRefundInfo fee la charge amount isMicro key =
        .ok
          { processingFee :=
              (fee (charge.amount - charge.amount_refunded) isMicro
                  (la charge.source) -
                fee (charge.amount - charge.amount_refunded -
                    jsRound (amount * 100)) isMicro (la charge.source)) / 100
            isMicro := isMicro
            balanceAmtCents := charge.amount - charge.amount_refunded
            amount := amount
            idempotencyKey := key }) := by
  constructor
  · intro hlt
    unfold generateRefundInfo
    rw [if_neg (not_le.mpr hlt)]
  · intro hge
    unfold generateRefundInfo
    rw [if_pos hge]

/-- C8 (witness): a $10.00 charge with nothing refunded admits a $5.00
refund, with the processing fee given by the fee delta of the sample
schedule. -/
theorem generateRefundInfo_spec_witness :
    generateRefundInfo sampleAdminFee sampleIsLocalAndNonAmex
        ⟨1000, 0, "visa-sg"⟩ 5 false "Refund:instance=x,ticketId=1" =
      .ok
        { processingFee :=
            (sampleAdminFee (1000 - 0) false (sampleIsLocalAndNonAmex "visa-sg") -
              sampleAdminFee (1000 - 0 - jsRound (5 * 100)) false
                (sampleIsLocalAndNonAmex "visa-sg")) / 100
          isMicro := false
          balanceAmtCents := 1000 - 0
          amount := 5
          idempotencyKey := "Refund:instance=x,ticketId=1" } :=
  (generateRefundInfo_spec sampleAdminFee sampleIsLocalAndNonAmex
    ⟨1000, 0, "visa-sg"⟩ 5 false "Refund:instance=x,ticketId=1").2 (by norm_num)

/-- C6 (counterexample): because `chargeSale` truncates the company
descriptor to 10 characters *before* dropping the forbidden characters,
the result differs from the claim's drop-then-truncate reading whenever a
forbidden character sits among the first ten: with company descriptor
`a"bcdefghijk` and transaction id `1` the code yields `abcdefghi,Ref#1`
while the claim predicts `abcdefghij,Ref#1`. -/
theorem statementDescriptor_strip_order_matters :
    statementDescriptor ('a' :: Char.ofNat 34 :: "bcdefghijk".toList)
        "1".toList ≠
      statementDescriptorClaimed ('a' :: Char.ofNat 34 :: "bcdefghijk".toList)
        "1".toList := by
  decide

/-- C6 (amended): the statement descriptor takes the first 10 characters of
the company descriptor, appends `,Ref#` and the transaction id, drops every
`<>"'` character, and truncates to 22; it always has length at most 22 and
contains none of `<>"'`, and it agrees with the claim's drop-first reading
whenever descriptor and id contain no forbidden character. -/
theorem statementDescriptor_props (d t : List Char) :
    (statementDescriptor d t).length ≤ 22 ∧
    (∀ c ∈ statementDescriptor d t, stripeBadChar c = false) ∧
    ((∀ c ∈ d, stripeBadChar c = false) → (∀ c ∈ t, stripeBadChar c = false) →
      statementDescriptor d t = statementDescriptorClaimed d t) := by
  refine ⟨?_, ?_, ?_⟩
  · rw [statementDescriptor, List.length_take]
    exact min_le_left _ _
  · intro c hc
    have hmem := List.mem_of_mem_take hc
    rw [stripBadChars, List.mem_filter] at hmem
    simpa using hmem.2
  · intro hd ht
    have hclean : ∀ s : List Char, (∀ c ∈ s, stripeBadChar c = false) →
        stripBadChars s = s := by
      intro s hs
      rw [stripBadChars, List.filter_eq_self]
      intro a ha
      simpa using hs a ha
    have hd10 : ∀ c ∈ d.take 10, stripeBadChar c = false :=
      fun c hc => hd c (List.mem_of_mem_take hc)
    have href : stripBadChars (",Ref#".toList ++ t) = ",Ref#".toList ++ t := by
      apply hclean
      intro c hc
      rcases List.mem_append.mp hc with h | h
      · exact (by decide : ∀ x ∈ ",Ref#".toList, stripeBadChar x = false) c h
      · exact ht c h
    rw [statementDescriptor, statementDescriptorClaimed, stripBadChars,
      List.filter_append, ← stripBadChars, ← stripBadChars, hclean _ hd10,
      hclean _ hd, href]

/-- C6 (witness for the amended theorem): a clean company descriptor and id
make the two readings agree, with the descriptor within bounds. -/
theorem statementDescriptor_props_witness :
    statementDescriptor "ACME Lines".toList "42".toList =
      statementDescriptorClaimed "ACME Lines".toList "42".toList ∧
    (statementDescriptor "ACME Lines".toList "42".toList).length ≤ 22 :=
  ⟨(statementDescriptor_props "ACME Lines".toList "42".toList).2.2
      (by decide) (by decide),
   (statementDescriptor_props "ACME Lines".toList "42".toList).1⟩

/-- C10: given the asserted precondition that a Stripe token or a saved
customer/source pair is present, `chargeSale` skips the gateway exactly
when the payment item's debit is the exact string `"0.00"` — in that case
the Payment row's `paymentResource` is set to null — while the number `0`
or the string `"0"` still trigger a `chargeCard` call. -/
theorem chargeSaleCharge_skips_iff_string_zero (g : ChargeRequest → String)
    (v : JSVal) (tok cust src : Option String)
    (h : tok ≠ none ∨ (cust ≠ none ∧ src ≠ none)) :
    ((chargeSaleCharge g v tok cust src).gatewayCall = none ↔
      v = .str "0.00") ∧
    (v = .str "0.00" →
      (chargeSaleCharge g v tok cust src).paymentResource = none) ∧
    (chargeSaleCharge g (.num 0) tok cust src).gatewayCall ≠ none ∧
    (chargeSaleCharge g (.str "0") tok cust src).gatewayCall ≠ none := by
  have hcall : ∀ w : JSVal, w ≠ .str "0.00" →
      (chargeSaleCharge g w tok cust src).gatewayCall ≠ none := by
    intro w hw
    unfold chargeSaleCharge
    rw [if_neg hw]
    rcases h with h1 | ⟨h2, h3⟩
    · obtain ⟨x, rfl⟩ := Option.ne_none_iff_exists'.mp h1
      simp
    · obtain ⟨x, rfl⟩ := Option.ne_none_iff_exists'.mp h2
      obtain ⟨y, rfl⟩ := Option.ne_none_iff_exists'.mp h3
      cases tok <;> simp
  refine ⟨?_, ?_, hcall _ (by simp), hcall _ (by simp)⟩
  · constructor
    · intro hnone
      by_contra hv
      exact hcall v hv hnone
    · intro hv
      unfold chargeSaleCharge
      rw [if_pos hv]
  · intro hv
    unfold chargeSaleCharge
    rw [if_pos hv]

/-- C10 (witness): with a Stripe token present, a `"0.00"` debit makes no
gateway call and nulls the payment resource, while a numeric `0` debit
still calls the gateway. -/
theorem chargeSaleCharge_skips_iff_string_zero_witness :
    (chargeSaleCharge (fun _ => "ch_1") (.str "0.00") (some "tok") none
        none).paymentResource = none ∧
    (chargeSaleCharge (fun _ => "ch_1") (.num 0) (some "tok") none
        none).gatewayCall ≠ none :=
  ⟨(chargeSaleCharge_skips_iff_string_zero (fun _ => "ch_1") (.str "0.00")
      (some "tok") none none (Or.inl (by simp))).2.1 rfl,
   (chargeSaleCharge_skips_iff_string_zero (fun _ => "ch_1") (.num 0)
      (some "tok") none none (Or.inl (by simp))).2.2.1⟩

end Beeline
